import Mathlib

/-!
Verification of the data-preparation and view logic of the air-traffic
dashboard (src/app.py) against its specification.

The embedding models:
  * one CSV row before preparation (`RawRow`), with the passenger cells kept
    as raw values (`Cell`) because the source converts them in two stages:
    pandas to_numeric with the coerce error mode (line 38), then an
    astype Int64 cast (line 41) that turns NaN into a missing marker,
    keeps integral numbers, and raises on a non-integral number;
  * one prepared row (`Row`) after the loader has derived TOTAL FREIGHT
    and Route and coerced the passenger columns;
  * the loader twice, over an abstract file system mapping paths to parsed
    CSV contents (`none` models a path for which os.path.exists is false):
    `load_data_checked` is the faithful fallible loader whose error case is
    the raising Int64 cast, and `load_data` is its restriction to the
    inputs on which the cast succeeds (`load_data_checked_refines` proves
    the two agree whenever the checked loader returns); both report the
    data frame together with a flag recording that a fatal error message
    was shown via st.error for a missing file;
  * the two slider configurations, the ranking view (dropna, sort_values
    descending, head N) and the scatter-partition coloring of chart2.
-/

/-- A raw value found in one of the passenger columns of the CSV,
abstracted by the outcome of the pandas numeric parse that
pd.to_numeric performs: `numVal q` is a cell whose content is a number
or a string that parses as one, carrying the parsed value (the string
12.5 is `numVal (25/2)`, the string 1e3 is `numVal 1000`); `nonNumeric s`
is a string that does not parse as a number; `na` is an empty cell. -/
inductive Cell where
  | numVal (q : Rat)
  | nonNumeric (s : String)
  | na
  deriving DecidableEq, Repr

/-- One row of the CSV as parsed by pd.read_csv, before `load_data`
derives anything.  City names are strings; the freight columns are
numeric and nullable; the passenger columns are raw cells. -/
structure RawRow where
  city1 : String
  city2 : String
  passengersTo : Cell
  passengersFrom : Cell
  totalPassengers : Cell
  freightTo : Option Rat
  freightFrom : Option Rat
  deriving DecidableEq, Repr

/-- One fully prepared row of the data frame returned by `load_data`:
all original columns plus the two derived columns TOTAL FREIGHT and
Route. -/
structure Row where
  city1 : String
  city2 : String
  passengersTo : Option Int
  passengersFrom : Option Int
  totalPassengers : Option Int
  freightTo : Option Rat
  freightFrom : Option Rat
  totalFreight : Option Rat
  route : String
  deriving DecidableEq, Repr

/-- Pandas addition of two nullable numeric values: NaN propagates, so the
sum is missing whenever either operand is missing. -/
def nanAdd (a b : Option Rat) : Option Rat :=
  match a, b with
  | some x, some y => some (x + y)
  | _, _ => none

/-- The message of the error raised by the line 41 cast when a float
column holds a non-integral value. -/
def castErrorMsg : String :=
  "cannot safely cast non-equivalent float64 to Int64"

/-- pd.to_numeric with the coerce error mode (line 38), applied to one
cell: numbers and numeric strings keep their parsed value, and anything
that cannot be parsed as numeric, or is missing, becomes NaN (`none`)
instead of an error. -/
def to_numeric_coerce (c : Cell) : Option Rat :=
  match c with
  | .numVal q => some q
  | .nonNumeric _ => none
  | .na => none

/-- The astype Int64 cast (line 41), applied to one converted cell: NaN
becomes the nullable-integer missing marker, an integral number becomes
its integer, and a non-integral number raises the cast error. -/
def astypeInt64 (x : Option Rat) : Except String (Option Int) :=
  match x with
  | none => .ok none
  | some q => if q.den = 1 then .ok (some q.num) else .error castErrorMsg

/-- The full fallible conversion of one passenger cell: line 38 followed
by line 41. -/
def convertCell (c : Cell) : Except String (Option Int) :=
  astypeInt64 (to_numeric_coerce c)

/-- Whether the line 41 cast raises on this cell: exactly the cells that
parse as a non-integral number. -/
def castFails (c : Cell) : Bool :=
  match c with
  | .numVal q => decide (q.den ≠ 1)
  | _ => false

/-- Whether the line 41 cast raises on some passenger cell of this row. -/
def rowCastFails (raw : RawRow) : Bool :=
  castFails raw.passengersTo || castFails raw.passengersFrom ||
    castFails raw.totalPassengers

/-- The value of one passenger cell after both conversion stages, on the
cells where the line 41 cast does not raise: an integral number keeps its
integer, and a non-numeric or missing cell becomes the missing marker.
On those cells this agrees with `convertCell`
(`convertCell_of_castFails_false`); a cell on which the cast raises has
no converted value in the program, and `load_data_checked` models that
error path. -/
def toNumericCoerce (c : Cell) : Option Int :=
  match c with
  | .numVal q => if q.den = 1 then some q.num else none
  | .nonNumeric _ => none
  | .na => none

/-- The per-row work of the loader (lines 30-41 of src/app.py) on rows
where the line 41 cast succeeds: derive
TOTAL FREIGHT = FREIGHT TO CITY 2 + FREIGHT FROM CITY 2, derive
Route = CITY 1 ++ " - " ++ CITY 2, and coerce the three passenger
columns to nullable integers.  `prepareRowChecked` is the fallible
version including the raising cast, and `prepareRowChecked_ok` shows the
two agree when the cast succeeds. -/
def prepareRow (r : RawRow) : Row :=
  { city1 := r.city1
    city2 := r.city2
    passengersTo := toNumericCoerce r.passengersTo
    passengersFrom := toNumericCoerce r.passengersFrom
    totalPassengers := toNumericCoerce r.totalPassengers
    freightTo := r.freightTo
    freightFrom := r.freightFrom
    totalFreight := nanAdd r.freightTo r.freightFrom
    route := r.city1 ++ " - " ++ r.city2 }

/-- An abstract file system: a path maps to the parsed contents of the CSV
file at that path, or to `none` when os.path.exists is false there. -/
def FS : Type := String → Option (List RawRow)

/-- The loader (lines 19-43 of src/app.py) restricted to the inputs on
which the line 41 cast succeeds; the faithful fallible loader is
`load_data_checked`, and `load_data_checked_refines` shows the two agree
whenever the checked loader returns.  The second component records
whether the fatal st.error message was displayed: a missing file yields an
empty data frame plus the reported error, and an existing file yields
every row prepared by `prepareRow` with no error. -/
def load_data (fs : FS) (file_path : String) : List Row × Bool :=
  match fs file_path with
  | none => ([], true)
  | some rows => (rows.map prepareRow, false)

/-- The fallible per-row preparation: the three passenger cells go
through both conversion stages, and the first raising cast aborts the
row with the cast error; otherwise the row is fully prepared. -/
def prepareRowChecked (raw : RawRow) : Except String Row :=
  match convertCell raw.passengersTo with
  | .error e => .error e
  | .ok pTo =>
    match convertCell raw.passengersFrom with
    | .error e => .error e
    | .ok pFrom =>
      match convertCell raw.totalPassengers with
      | .error e => .error e
      | .ok pTot =>
        .ok { city1 := raw.city1
              city2 := raw.city2
              passengersTo := pTo
              passengersFrom := pFrom
              totalPassengers := pTot
              freightTo := raw.freightTo
              freightFrom := raw.freightFrom
              totalFreight := nanAdd raw.freightTo raw.freightFrom
              route := raw.city1 ++ " - " ++ raw.city2 }

/-- The line 41 cast over the whole table: it raises (with the one cast
error) as soon as any passenger cell of any row holds a non-integral
number, and otherwise yields every row fully prepared.  The traversal
order is unobservable because every failure carries the same error. -/
def prepareRows : List RawRow → Except String (List Row)
  | [] => .ok []
  | raw :: rest =>
    match prepareRowChecked raw with
    | .error e => .error e
    | .ok r =>
      match prepareRows rest with
      | .error e => .error e
      | .ok rs => .ok (r :: rs)

/-- The faithful fallible loader (lines 19-43 of src/app.py): a missing
file yields the empty data frame plus the reported fatal error, a file
with a non-integral passenger number propagates the raising Int64 cast
of line 41 (there is no try block in load_data, so the exception escapes
to the caller), and any other existing file yields the fully prepared
data frame. -/
def load_data_checked (fs : FS) (file_path : String) :
    Except String (List Row × Bool) :=
  match fs file_path with
  | none => .ok ([], true)
  | some rows =>
    match prepareRows rows with
    | .ok df => .ok (df, false)
    | .error e => .error e

/-- The `if not df.empty` guard (line 48): the dashboard body renders only
when the data frame is non-empty. -/
def rendersDashboard (df : List Row) : Bool :=
  !df.isEmpty

/-- `df.dropna(subset=[TOTAL PASSENGERS])` (line 75): keep the rows whose
TOTAL PASSENGERS is not missing. -/
def df_clean (df : List Row) : List Row :=
  df.filter (fun r => r.totalPassengers.isSome)

/-- Sort key of the ranking view: the TOTAL PASSENGERS value.  It is only
ever applied to rows of `df_clean`, where the value is present. -/
def passengerKey (r : Row) : Int :=
  r.totalPassengers.getD 0

/-- The descending order used by sort_values with ascending=False on the
TOTAL PASSENGERS column. -/
def byPassengersDesc (a b : Row) : Prop :=
  passengerKey b ≤ passengerKey a

instance : DecidableRel byPassengersDesc :=
  fun a b => inferInstanceAs (Decidable (passengerKey b ≤ passengerKey a))

instance : IsTotal Row byPassengersDesc :=
  ⟨fun a b => le_total (passengerKey b) (passengerKey a)⟩

instance : IsTrans Row byPassengersDesc :=
  ⟨fun _ _ _ h1 h2 => le_trans h2 h1⟩

/-- The ranking view (line 77):
df_clean.sort_values(by=TOTAL PASSENGERS, ascending=False).head(top_n). -/
def top_routes_df (df : List Row) (top_n : Nat) : List Row :=
  (List.insertionSort byPassengersDesc (df_clean df)).take top_n

/-- Configuration of one st.slider call: lower bound, upper bound, initial
value and step. -/
structure SliderSpec where
  lo : Nat
  hi : Nat
  value : Nat
  step : Nat
  deriving DecidableEq, Repr

/-- The top-N slider (line 76): st.slider(label, 5, min(50, len(df_clean)), 20). -/
def topNSlider (df : List Row) : SliderSpec :=
  { lo := 5, hi := min 50 (df_clean df).length, value := 20, step := 1 }

/-- The threshold slider (lines 99-100): st.slider(label, 10, 500, 250, step=10). -/
def thresholdSlider : SliderSpec :=
  { lo := 10, hi := 500, value := 250, step := 10 }

/-- The scaling of the threshold slider value (line 100): multiplied by
1000 before use. -/
def thresholdValue (sliderVal : Nat) : Nat :=
  sliderVal * 1000

/-- The conditional highlight of chart2 (lines 110-116): a datum whose
TOTAL PASSENGERS is at least the threshold is colored red (high volume);
otherwise, including when the value is missing, the comparison fails and
the datum is colored steelblue (low volume). -/
def geNA (x : Option Int) (t : Int) : Bool :=
  match x with
  | some v => decide (t ≤ v)
  | none => false

/-- The color assigned to one row by chart2 for a given threshold. -/
def pointColor (threshold : Int) (r : Row) : String :=
  if geNA r.totalPassengers threshold then "red" else "steelblue"

/-- The scatter view of chart2 (line 102): every row of the full data
frame df, paired with its partition color. -/
def chart2Points (df : List Row) (threshold : Int) : List (Row × String) :=
  df.map (fun r => (r, pointColor threshold r))

/-- Modelled from the spec: the st.cache_data memoization wrapping
`load_data` (line 18) is not code of this repository, so its semantics is
taken from the specification: results are cached keyed by the input path,
populated on first call and reused for all later calls with the same key.
The cache is an association list from paths to results. -/
def CacheState : Type := List (String × (List Row × Bool))

/-- Modelled from the spec: one call to the cached loader.  Returns the
result, the updated cache, and the number of underlying file reads
performed by this call (0 on a cache hit, 1 on a miss). -/
def cachedLoad (fs : FS) (cache : CacheState) (path : String) :
    (List Row × Bool) × CacheState × Nat :=
  match cache.lookup path with
  | some res => (res, cache, 0)
  | none =>
    let res := load_data fs path
    (res, (path, res) :: cache, 1)

/-- The rational n/1, built with literal fields so that concrete cells
reduce inside the kernel. -/
def intRat (n : Int) : Rat :=
  ⟨n, 1, Nat.one_ne_zero, Nat.coprime_one_right _⟩

/-- The rational 25/2 = 12.5, a parsed numeric value that is not
integral, built with literal fields so that concrete cells reduce inside
the kernel. -/
def badRat : Rat :=
  ⟨25, 2, by decide, by decide⟩

/-- A concrete clean CSV row used by the witnesses: the first row of the
scenario in section 8 of the spec. -/
def exRaw : RawRow :=
  { city1 := "A", city2 := "B"
    passengersTo := .numVal (intRat 10), passengersFrom := .numVal (intRat 5)
    totalPassengers := .numVal (intRat 15)
    freightTo := some 2, freightFrom := some 1 }

/-- A concrete CSV row whose TOTAL PASSENGERS cell is missing, used by the
witnesses and the counterexample. -/
def exRawNA : RawRow :=
  { city1 := "C", city2 := "D"
    passengersTo := .numVal (intRat 100), passengersFrom := .numVal (intRat 50)
    totalPassengers := .na
    freightTo := some 10, freightFrom := none }

/-- A concrete CSV row whose PASSENGERS TO CITY 2 cell holds the
non-integral numeric value 12.5, on which the line 41 cast raises. -/
def exRawBad : RawRow :=
  { city1 := "E", city2 := "F"
    passengersTo := .numVal badRat, passengersFrom := .numVal (intRat 7)
    totalPassengers := .na
    freightTo := none, freightFrom := none }

/-- A concrete file system holding one two-row CSV at every path. -/
def exFS : FS := fun _ => some [exRaw, exRawNA]

/-- A concrete file system whose file pairs a fully clean row with the
row holding the non-integral passenger value. -/
def exFSbad : FS := fun _ => some [exRaw, exRawBad]

/-- The concrete loaded data frame used by the witnesses. -/
def exDF : List Row := (load_data exFS "data.csv").1

/-! ## Helper lemmas -/

/-- Every row of a loaded data frame is the preparation of some raw row of
the file found at the path. -/
theorem mem_load_data {fs : FS} {path : String} {r : Row}
    (hr : r ∈ (load_data fs path).1) :
    ∃ rows raw, fs path = some rows ∧ raw ∈ rows ∧ r = prepareRow raw := by
  rcases hfs : fs path with _ | rows
  · simp [load_data, hfs] at hr
  · rw [load_data, hfs] at hr
    simp only [List.mem_map] at hr
    obtain ⟨raw, hraw, hEq⟩ := hr
    exact ⟨rows, raw, rfl, hraw, hEq.symm⟩

/-- On an existing file, `load_data` returns exactly the prepared rows. -/
theorem load_data_of_exists {fs : FS} {path : String} {rows : List RawRow}
    (h : fs path = some rows) :
    load_data fs path = (rows.map prepareRow, false) := by
  rw [load_data, h]

/-- On a cell where the line 41 cast does not raise, the fallible
conversion succeeds with exactly the value of `toNumericCoerce`. -/
theorem convertCell_of_castFails_false {c : Cell} (h : castFails c = false) :
    convertCell c = .ok (toNumericCoerce c) := by
  cases c with
  | numVal q =>
    simp only [castFails, decide_eq_false_iff_not, not_not] at h
    simp [convertCell, to_numeric_coerce, astypeInt64, toNumericCoerce, h]
  | nonNumeric s => rfl
  | na => rfl

/-- On a cell holding a non-integral number, the fallible conversion
raises the cast error. -/
theorem convertCell_of_castFails_true {c : Cell} (h : castFails c = true) :
    convertCell c = .error castErrorMsg := by
  cases c with
  | numVal q =>
    simp only [castFails, decide_eq_true_eq] at h
    simp [convertCell, to_numeric_coerce, astypeInt64, h]
  | nonNumeric s => simp [castFails] at h
  | na => simp [castFails] at h

/-- On a row where no cast raises, the fallible preparation succeeds with
exactly the prepared row. -/
theorem prepareRowChecked_ok {raw : RawRow} (h : rowCastFails raw = false) :
    prepareRowChecked raw = .ok (prepareRow raw) := by
  simp only [rowCastFails, Bool.or_eq_false_iff] at h
  obtain ⟨⟨h1, h2⟩, h3⟩ := h
  unfold prepareRowChecked
  rw [convertCell_of_castFails_false h1, convertCell_of_castFails_false h2,
    convertCell_of_castFails_false h3]
  rfl

/-- On a row where some cast raises, the fallible preparation raises the
cast error. -/
theorem prepareRowChecked_error {raw : RawRow}
    (h : rowCastFails raw = true) :
    prepareRowChecked raw = .error castErrorMsg := by
  unfold prepareRowChecked
  cases h1 : castFails raw.passengersTo with
  | true => rw [convertCell_of_castFails_true h1]
  | false =>
    rw [convertCell_of_castFails_false h1]
    cases h2 : castFails raw.passengersFrom with
    | true => rw [convertCell_of_castFails_true h2]
    | false =>
      rw [convertCell_of_castFails_false h2]
      cases h3 : castFails raw.totalPassengers with
      | true => rw [convertCell_of_castFails_true h3]
      | false => simp [rowCastFails, h1, h2, h3] at h

/-- When no cell of the file makes the cast raise, the table-level cast
succeeds with every row prepared. -/
theorem prepareRows_ok {rows : List RawRow}
    (h : ∀ raw ∈ rows, rowCastFails raw = false) :
    prepareRows rows = .ok (rows.map prepareRow) := by
  induction rows with
  | nil => rfl
  | cons raw rest ih =>
    have h1 := h raw (List.mem_cons_self _ _)
    have h2 : ∀ x ∈ rest, rowCastFails x = false :=
      fun x hx => h x (List.mem_cons_of_mem _ hx)
    simp only [prepareRows]
    rw [prepareRowChecked_ok h1, ih h2]
    rfl

/-- When some cell of the file makes the cast raise, the table-level cast
raises the cast error. -/
theorem prepareRows_error {rows : List RawRow}
    (h : ∃ raw ∈ rows, rowCastFails raw = true) :
    prepareRows rows = .error castErrorMsg := by
  induction rows with
  | nil => simp at h
  | cons raw rest ih =>
    cases hf : rowCastFails raw with
    | true =>
      simp only [prepareRows]
      rw [prepareRowChecked_error hf]
    | false =>
      have hrest : ∃ x ∈ rest, rowCastFails x = true := by
        obtain ⟨y, hy, hyt⟩ := h
        rcases List.mem_cons.mp hy with rfl | hy2
        · rw [hf] at hyt
          exact absurd hyt (by simp)
        · exact ⟨y, hy2, hyt⟩
      simp only [prepareRows]
      rw [prepareRowChecked_ok hf, ih hrest]

/-- Inversion: a successful table-level cast forces every row to be cast
cleanly and the result to be the prepared rows. -/
theorem prepareRows_ok_inv {rows : List RawRow} {df : List Row}
    (h : prepareRows rows = .ok df) :
    df = rows.map prepareRow ∧ ∀ raw ∈ rows, rowCastFails raw = false := by
  by_cases hbad : ∃ raw ∈ rows, rowCastFails raw = true
  · rw [prepareRows_error hbad] at h
    simp at h
  · push_neg at hbad
    have hall : ∀ raw ∈ rows, rowCastFails raw = false := by
      intro raw hr
      have := hbad raw hr
      revert this
      cases rowCastFails raw <;> simp
    rw [prepareRows_ok hall] at h
    simp only [Except.ok.injEq] at h
    exact ⟨h.symm, hall⟩

/-- The checked loader on a missing file: empty table plus the recorded
fatal error. -/
theorem load_data_checked_none {fs : FS} {path : String}
    (h : fs path = none) :
    load_data_checked fs path = .ok ([], true) := by
  rw [load_data_checked, h]

/-- The checked loader on an existing file, expressed by the table-level
cast. -/
theorem load_data_checked_some {fs : FS} {path : String}
    {rows : List RawRow} (h : fs path = some rows) :
    load_data_checked fs path =
      match prepareRows rows with
      | .ok df => .ok (df, false)
      | .error e => .error e := by
  rw [load_data_checked, h]

/-- Refinement: whenever the checked loader returns at all, `load_data`
computes the same result, so the total model agrees with the fallible
one on its success region. -/
theorem load_data_checked_refines {fs : FS} {path : String}
    {res : List Row × Bool} (h : load_data_checked fs path = .ok res) :
    load_data fs path = res := by
  rcases hfs : fs path with _ | rows
  · rw [load_data_checked_none hfs] at h
    rw [load_data, hfs]
    exact Except.ok.inj h
  · rw [load_data_checked_some hfs] at h
    rcases hp : prepareRows rows with e | df
    · rw [hp] at h
      simp at h
    · rw [hp] at h
      simp only [Except.ok.injEq] at h
      obtain ⟨hdf, -⟩ := prepareRows_ok_inv hp
      rw [load_data, hfs, ← h, hdf]

/-! ## Claims -/

/-- C1: for every row of the loaded table, the derived TOTAL FREIGHT
column is the sum of FREIGHT TO CITY 2 and FREIGHT FROM CITY 2 when both
are present, and is missing whenever either operand is missing. -/
theorem load_data_totalFreight (fs : FS) (path : String) (r : Row)
    (hr : r ∈ (load_data fs path).1) :
    (∀ x y : Rat, r.freightTo = some x → r.freightFrom = some y →
      r.totalFreight = some (x + y)) ∧
    ((r.freightTo = none ∨ r.freightFrom = none) → r.totalFreight = none) := by
  obtain ⟨rows, raw, _, _, hEq⟩ := mem_load_data hr
  subst hEq
  refine ⟨fun x y hx hy => ?_, fun h => ?_⟩
  · simp only [prepareRow] at hx hy ⊢
    rw [hx, hy] at *
    simp [nanAdd, hx, hy]
  · simp only [prepareRow] at h ⊢
    rcases h with h | h <;> rw [h] <;> cases hb : raw.freightFrom <;>
      cases ha : raw.freightTo <;> simp_all [nanAdd]

/-- Witness for C1 at the concrete loaded table `exDF`. -/
theorem load_data_totalFreight_w :
    (∀ x y : Rat, (prepareRow exRaw).freightTo = some x →
      (prepareRow exRaw).freightFrom = some y →
      (prepareRow exRaw).totalFreight = some (x + y)) ∧
    (((prepareRow exRaw).freightTo = none ∨
      (prepareRow exRaw).freightFrom = none) →
      (prepareRow exRaw).totalFreight = none) :=
  load_data_totalFreight exFS "data.csv" (prepareRow exRaw)
    (List.mem_cons_self _ _)

/-- C2: for every path that does not name an existing file, `load_data`
records the fatal user-visible error and returns the empty table, and the
emptiness guard then skips all downstream rendering. -/
theorem load_data_missing_file (fs : FS) (path : String)
    (h : fs path = none) :
    load_data fs path = ([], true) ∧
    rendersDashboard (load_data fs path).1 = false := by
  rw [load_data, h]
  exact ⟨rfl, rfl⟩

/-- Witness for C2 on a file system with no files. -/
theorem load_data_missing_file_w :
    load_data (fun _ => none) "absent.csv" = ([], true) ∧
    rendersDashboard (load_data (fun _ => none) "absent.csv").1 = false :=
  load_data_missing_file (fun _ => none) "absent.csv" rfl

/-- C5: for every row of the loaded table, the derived Route column is
CITY 1, the literal separator " - ", and CITY 2, concatenated exactly. -/
theorem load_data_route (fs : FS) (path : String) (r : Row)
    (hr : r ∈ (load_data fs path).1) :
    r.route = r.city1 ++ " - " ++ r.city2 := by
  obtain ⟨rows, raw, _, _, hEq⟩ := mem_load_data hr
  subst hEq
  rfl

/-- Witness for C5 at the concrete loaded table `exDF`. -/
theorem load_data_route_w :
    (prepareRow exRaw).route =
      (prepareRow exRaw).city1 ++ " - " ++ (prepareRow exRaw).city2 :=
  load_data_route exFS "data.csv" (prepareRow exRaw) (List.mem_cons_self _ _)

/-- C6 counterexample: the file at exFSbad exists (os.path.exists holds)
and holds the passenger cell 12.5; instead of converting the passenger
columns and coercing bad values to missing, the load raises the Int64
cast error and converts nothing, so the unconditional conversion claim
fails at this input. -/
theorem passengers_numeric_cex :
    exFSbad "data.csv" = some [exRaw, exRawBad] ∧
    load_data_checked exFSbad "data.csv" = .error castErrorMsg := by
  refine ⟨rfl, ?_⟩
  rw [load_data_checked_some (show exFSbad "data.csv" = _ from rfl),
    prepareRows_error ⟨exRawBad, by simp, by decide⟩]

/-- C6 amended: on an existing file, any passenger cell that cannot be
parsed as numeric converts to a missing value and never raises; when no
passenger cell holds a parseable non-integral number, the load completes
with every row prepared; and whenever the load returns a table, all
three passenger columns of every row carry the converted nullable
integers.  A parseable non-integral value instead aborts the load at the
line 41 cast. -/
theorem load_data_passengers_numeric (fs : FS) (path : String)
    (rows : List RawRow) (h : fs path = some rows) :
    (∀ c : Cell, (∀ q : Rat, c ≠ Cell.numVal q) → convertCell c = .ok none) ∧
    ((∀ raw ∈ rows, rowCastFails raw = false) →
      load_data_checked fs path = .ok (rows.map prepareRow, false)) ∧
    (∀ df e, load_data_checked fs path = .ok (df, e) →
      ∀ r ∈ df, ∃ raw ∈ rows,
        r.passengersTo = toNumericCoerce raw.passengersTo ∧
        r.passengersFrom = toNumericCoerce raw.passengersFrom ∧
        r.totalPassengers = toNumericCoerce raw.totalPassengers) := by
  refine ⟨?_, ?_, ?_⟩
  · intro c hc
    cases c with
    | numVal q => exact absurd rfl (hc q)
    | nonNumeric s => rfl
    | na => rfl
  · intro hall
    rw [load_data_checked_some h, prepareRows_ok hall]
  · intro df e hok r hr
    rw [load_data_checked_some h] at hok
    rcases hp : prepareRows rows with e2 | df2
    · rw [hp] at hok
      simp at hok
    · rw [hp] at hok
      simp only [Except.ok.injEq, Prod.mk.injEq] at hok
      obtain ⟨hdf, -⟩ := prepareRows_ok_inv hp
      rw [← hok.1, hdf] at hr
      obtain ⟨raw, hraw, hEq⟩ := List.mem_map.mp hr
      exact ⟨raw, hraw, by rw [← hEq]; exact ⟨rfl, rfl, rfl⟩⟩

/-- Witness for C6 amended at the concrete file system `exFS`, whose
cells all cast cleanly. -/
theorem load_data_passengers_numeric_w :
    (∀ c : Cell, (∀ q : Rat, c ≠ Cell.numVal q) → convertCell c = .ok none) ∧
    ((∀ raw ∈ [exRaw, exRawNA], rowCastFails raw = false) →
      load_data_checked exFS "data.csv" =
        .ok ([exRaw, exRawNA].map prepareRow, false)) ∧
    (∀ df e, load_data_checked exFS "data.csv" = .ok (df, e) →
      ∀ r ∈ df, ∃ raw ∈ [exRaw, exRawNA],
        r.passengersTo = toNumericCoerce raw.passengersTo ∧
        r.passengersFrom = toNumericCoerce raw.passengersFrom ∧
        r.totalPassengers = toNumericCoerce raw.totalPassengers) :=
  load_data_passengers_numeric exFS "data.csv" [exRaw, exRawNA] rfl

/-- C7 counterexample: the file at exFSbad pairs a fully clean row with
one bad passenger cell, yet the load returns no table at all, not even a
partial one with the clean row: it raises the cast error, so neither a
prepared table nor the empty table is returned at this path. -/
theorem all_or_nothing_cex :
    (load_data_checked exFSbad "data.csv").isOk = false := by
  rw [load_data_checked_some (show exFSbad "data.csv" = _ from rfl),
    prepareRows_error ⟨exRawBad, by simp, by decide⟩]
  rfl

/-- C7 amended: for every path, the load either returns the empty table
with the recorded fatal error (missing file), or raises the Int64 cast
error (some passenger cell holds a parseable non-integral number), or
returns the table in which every row is fully prepared with both derived
columns computed; a partially derived table is never returned. -/
theorem load_data_all_or_nothing (fs : FS) (path : String) :
    (fs path = none ∧ load_data_checked fs path = .ok ([], true)) ∨
    (∃ rows, fs path = some rows ∧
      (∃ raw ∈ rows, rowCastFails raw = true) ∧
      load_data_checked fs path = .error castErrorMsg) ∨
    (∃ rows, fs path = some rows ∧
      load_data_checked fs path = .ok (rows.map prepareRow, false) ∧
      ∀ r ∈ rows.map prepareRow,
        r.totalFreight = nanAdd r.freightTo r.freightFrom ∧
        r.route = r.city1 ++ " - " ++ r.city2) := by
  rcases hfs : fs path with _ | rows
  · exact Or.inl ⟨rfl, load_data_checked_none hfs⟩
  · by_cases hbad : ∃ raw ∈ rows, rowCastFails raw = true
    · refine Or.inr (Or.inl ⟨rows, rfl, hbad, ?_⟩)
      rw [load_data_checked_some hfs, prepareRows_error hbad]
    · push_neg at hbad
      have hall : ∀ raw ∈ rows, rowCastFails raw = false := by
        intro raw hr
        have := hbad raw hr
        revert this
        cases rowCastFails raw <;> simp
      refine Or.inr (Or.inr ⟨rows, rfl, ?_, fun r hr => ?_⟩)
      · rw [load_data_checked_some hfs, prepareRows_ok hall]
      · obtain ⟨raw, hraw, hEq⟩ := List.mem_map.mp hr
        rw [← hEq]
        exact ⟨rfl, rfl⟩

/-- C3: the ranking view returns exactly the top_n greatest rows by
TOTAL PASSENGERS among the rows where that value is present, sorted in
descending order; the result can be extended by a list of leftover clean
rows, each no greater than every returned row, to a permutation of all
clean rows; and when top_n is at least the clean-row count the result is
all the clean rows. -/
theorem top_routes_df_spec (df : List Row) (n : Nat) :
    (top_routes_df df n).length = min n (df_clean df).length ∧
    List.Sorted byPassengersDesc (top_routes_df df n) ∧
    (∀ r ∈ top_routes_df df n, r.totalPassengers.isSome = true) ∧
    (∃ rest, (top_routes_df df n ++ rest).Perm (df_clean df) ∧
      ∀ a ∈ top_routes_df df n, ∀ b ∈ rest, passengerKey b ≤ passengerKey a) ∧
    ((df_clean df).length ≤ n → (top_routes_df df n).Perm (df_clean df)) := by
  have hdef : top_routes_df df n =
      (List.insertionSort byPassengersDesc (df_clean df)).take n := rfl
  have hperm : (List.insertionSort byPassengersDesc (df_clean df)).Perm
      (df_clean df) := List.perm_insertionSort _ _
  have hsorted : List.Pairwise byPassengersDesc
      (List.insertionSort byPassengersDesc (df_clean df)) :=
    List.sorted_insertionSort _ _
  refine ⟨?_, ?_, ?_, ?_, ?_⟩
  · rw [hdef, List.length_take, hperm.length_eq]
  · exact List.Pairwise.sublist (hdef ▸ List.take_sublist n _) hsorted
  · intro r hr
    rw [hdef] at hr
    have hmem : r ∈ df_clean df := hperm.mem_iff.mp (List.mem_of_mem_take hr)
    simpa using (List.mem_filter.mp hmem).2
  · refine ⟨(List.insertionSort byPassengersDesc (df_clean df)).drop n,
      ?_, ?_⟩
    · rw [hdef, List.take_append_drop]
      exact hperm
    · have hsplit := List.take_append_drop n
        (List.insertionSort byPassengersDesc (df_clean df))
      rw [← hsplit] at hsorted
      rw [hdef]
      exact (List.pairwise_append.mp hsorted).2.2
  · intro hle
    rw [hdef, List.take_of_length_le (hperm.length_eq ▸ hle)]
    exact hperm

/-- Witness for C3 at the concrete loaded table `exDF` with top_n = 1. -/
theorem top_routes_df_spec_w :
    (top_routes_df exDF 1).length = min 1 (df_clean exDF).length ∧
    List.Sorted byPassengersDesc (top_routes_df exDF 1) ∧
    (∀ r ∈ top_routes_df exDF 1, r.totalPassengers.isSome = true) ∧
    (∃ rest, (top_routes_df exDF 1 ++ rest).Perm (df_clean exDF) ∧
      ∀ a ∈ top_routes_df exDF 1, ∀ b ∈ rest,
        passengerKey b ≤ passengerKey a) ∧
    ((df_clean exDF).length ≤ 1 → (top_routes_df exDF 1).Perm (df_clean exDF)) :=
  top_routes_df_spec exDF 1

/-- C4: for every slider value, with the threshold being the slider value
scaled by 1000, a row is colored red (high volume) exactly when its
TOTAL PASSENGERS is present and at least the threshold; a row whose value
is present but below the threshold is colored steelblue (low volume); and
the boundary case of a value equal to the threshold is red. -/
theorem chart2_partition_spec (sliderVal : Nat) (r : Row) :
    (pointColor ((thresholdValue sliderVal : Nat) : Int) r = "red" ↔
      ∃ v : Int, r.totalPassengers = some v ∧
        ((thresholdValue sliderVal : Nat) : Int) ≤ v) ∧
    (∀ v : Int, r.totalPassengers = some v →
      v < ((thresholdValue sliderVal : Nat) : Int) →
      pointColor ((thresholdValue sliderVal : Nat) : Int) r = "steelblue") ∧
    (r.totalPassengers = some ((thresholdValue sliderVal : Nat) : Int) →
      pointColor ((thresholdValue sliderVal : Nat) : Int) r = "red") := by
  refine ⟨⟨fun h => ?_, fun h => ?_⟩, fun v hv hlt => ?_, fun h => ?_⟩
  · rcases hx : r.totalPassengers with _ | v
    · simp [pointColor, geNA, hx] at h
    · refine ⟨v, rfl, ?_⟩
      by_contra hnot
      simp [pointColor, geNA, hx, hnot] at h
  · obtain ⟨v, hv, hle⟩ := h
    simp [pointColor, geNA, hv, hle]
  · simp [pointColor, geNA, hv, not_le.mpr hlt]
  · simp [pointColor, geNA, h]

/-- Witness for C4 at slider value 100 and the first concrete row: its
TOTAL PASSENGERS is 15, below the threshold 100000, so it is steelblue. -/
theorem chart2_partition_spec_w :
    (pointColor ((thresholdValue 100 : Nat) : Int) (prepareRow exRaw) = "red" ↔
      ∃ v : Int, (prepareRow exRaw).totalPassengers = some v ∧
        ((thresholdValue 100 : Nat) : Int) ≤ v) ∧
    (∀ v : Int, (prepareRow exRaw).totalPassengers = some v →
      v < ((thresholdValue 100 : Nat) : Int) →
      pointColor ((thresholdValue 100 : Nat) : Int) (prepareRow exRaw) =
        "steelblue") ∧
    ((prepareRow exRaw).totalPassengers =
        some ((thresholdValue 100 : Nat) : Int) →
      pointColor ((thresholdValue 100 : Nat) : Int) (prepareRow exRaw) =
        "red") :=
  chart2_partition_spec 100 (prepareRow exRaw)

/-- C10: a row whose TOTAL PASSENGERS is missing after the load never
appears in the ranking view for any top_n, yet for every threshold it
appears in the chart2 scatter view colored steelblue (low volume),
because a missing value never satisfies the greater-or-equal test. -/
theorem na_row_ranking_vs_partition (df : List Row) (r : Row)
    (h : r.totalPassengers = none) :
    (∀ n : Nat, r ∉ top_routes_df df n) ∧
    (∀ t : Int, r ∈ df → (r, "steelblue") ∈ chart2Points df t) := by
  constructor
  · intro n hr
    have hmem : r ∈ df_clean df :=
      (List.perm_insertionSort byPassengersDesc (df_clean df)).mem_iff.mp
        (List.mem_of_mem_take hr)
    have := (List.mem_filter.mp hmem).2
    rw [h] at this
    simp at this
  · intro t hdf
    have hcolor : pointColor t r = "steelblue" := by
      simp [pointColor, geNA, h]
    rw [chart2Points, ← hcolor]
    exact List.mem_map_of_mem _ hdf

/-- Witness for C10 at the concrete loaded table: the prepared second row
has a missing TOTAL PASSENGERS. -/
theorem na_row_ranking_vs_partition_w :
    (∀ n : Nat, prepareRow exRawNA ∉ top_routes_df exDF n) ∧
    (∀ t : Int, prepareRow exRawNA ∈ exDF →
      (prepareRow exRawNA, "steelblue") ∈ chart2Points exDF t) :=
  na_row_ranking_vs_partition exDF (prepareRow exRawNA) rfl

/-- C8: starting from an empty cache, a second call of the cached loader
with the same path returns the first result unchanged, performs no file
read of its own, and across the two calls the underlying read happens
exactly once. -/
theorem cache_single_read (fs : FS) (path : String) :
    (cachedLoad fs (cachedLoad fs [] path).2.1 path).1 =
      (cachedLoad fs [] path).1 ∧
    (cachedLoad fs (cachedLoad fs [] path).2.1 path).2.2 = 0 ∧
    (cachedLoad fs [] path).2.2 +
      (cachedLoad fs (cachedLoad fs [] path).2.1 path).2.2 = 1 := by
  simp [cachedLoad, List.lookup]

/-- Witness for C8 at the concrete file system `exFS`. -/
theorem cache_single_read_w :
    (cachedLoad exFS (cachedLoad exFS [] "data.csv").2.1 "data.csv").1 =
      (cachedLoad exFS [] "data.csv").1 ∧
    (cachedLoad exFS (cachedLoad exFS [] "data.csv").2.1 "data.csv").2.2 = 0 ∧
    (cachedLoad exFS [] "data.csv").2.2 +
      (cachedLoad exFS (cachedLoad exFS [] "data.csv").2.1 "data.csv").2.2 = 1 :=
  cache_single_read exFS "data.csv"

/-- C9 counterexample: on the concrete loaded table `exDF` (two rows, one
with a missing TOTAL PASSENGERS), the upper bound of the top-N slider is
min 50 1 = 1, not min(50, row count of the loaded table) = 2: the code
bounds the slider by the clean-row count, not the loaded-row count. -/
theorem slider_bounds_cex :
    ¬ ((topNSlider exDF).hi = min 50 exDF.length) := by
  decide

/-- C9 amended: the top-N slider is bounded to [5, min(50, c)] where c is
the number of loaded rows whose TOTAL PASSENGERS is non-missing, and the
threshold slider is bounded to [10, 500] with step 10 and its value is
scaled by 1000. -/
theorem slider_bounds_amended (fs : FS) (path : String)
    (rows : List RawRow) (h : fs path = some rows) :
    (topNSlider (load_data fs path).1).lo = 5 ∧
    (topNSlider (load_data fs path).1).hi =
      min 50 (rows.countP
        (fun raw => (toNumericCoerce raw.totalPassengers).isSome)) ∧
    thresholdSlider.lo = 10 ∧ thresholdSlider.hi = 500 ∧
    thresholdSlider.step = 10 ∧
    (∀ s : Nat, thresholdValue s = s * 1000) := by
  refine ⟨rfl, ?_, rfl, rfl, rfl, fun s => rfl⟩
  rw [load_data_of_exists h]
  show min 50 (df_clean (rows.map prepareRow)).length = _
  rw [df_clean, List.filter_map, List.length_map,
    ← List.countP_eq_length_filter]
  rfl

/-- Witness for C9 amended at the concrete file system `exFS`. -/
theorem slider_bounds_amended_w :
    (topNSlider (load_data exFS "data.csv").1).lo = 5 ∧
    (topNSlider (load_data exFS "data.csv").1).hi =
      min 50 ([exRaw, exRawNA].countP
        (fun raw => (toNumericCoerce raw.totalPassengers).isSome)) ∧
    thresholdSlider.lo = 10 ∧ thresholdSlider.hi = 500 ∧
    thresholdSlider.step = 10 ∧
    (∀ s : Nat, thresholdValue s = s * 1000) :=
  slider_bounds_amended exFS "data.csv" [exRaw, exRawNA] rfl
